import Mathlib

/-!
Verification development for the KnowledgeNest repository.

The repository is a microservices course platform whose core, per the
specification, is the RabbitMQ event-driven messaging layer (publishers in
auth/course/review services, a consumer in the notification service), plus a
PostgreSQL schema (`src/database/postgres/schema.sql`) and a React frontend
(`src/frontend/src/utils/api.js`, `src/frontend/src/pages/Courses.jsx`).

The Python sources of the messaging layer (`rabbitmq_client.py`,
`services/notification_service/app.py`) are not present under `src/`; only
their documentation (`RABBITMQ_IMPLEMENTATION.md`, the project overview) is.
Definitions for the messaging layer are therefore modelled from the spec, as
marked in their doc comments.  The SQL schema and the frontend API client are
embedded from their sources.
-/

namespace KnowledgeNest

/-! ## JSON values and their serialization

The wire format of every event is UTF-8 JSON (`RABBITMQ_IMPLEMENTATION.md`:
"JSON message format", payload examples at lines 62-108).  Numbers are
modelled as integers, which covers every field in the repository's payloads
(ids, ratings); nothing in the claims depends on floats. -/

inductive Json where
  | null : Json
  | bool : Bool → Json
  | num : Int → Json
  | str : String → Json
  | arr : List Json → Json
  | obj : List (String × Json) → Json
deriving Repr

/-- Escape a string for inclusion in a JSON document: backslash and double
quote are escaped; other characters pass through (sufficient for the
repository's payload vocabulary). -/
def jsonEscape (s : String) : String :=
  s.data.foldl (fun acc c =>
    if c = '\\' then acc ++ "\\\\"
    else if c = '"' then acc ++ "\\\""
    else acc.push c) ""

mutual

/-- Serialize a JSON value to its textual form (the body of every published
message is this text, UTF-8 encoded). -/
def Json.serialize : Json → String
  | .null => "null"
  | .bool true => "true"
  | .bool false => "false"
  | .num n => toString n
  | .str s => "\"" ++ jsonEscape s ++ "\""
  | .arr xs => "[" ++ serializeElems xs ++ "]"
  | .obj kvs => "\x7b" ++ serializeFields kvs ++ "\x7d"

/-- Serialize the comma-separated elements of a JSON array. -/
def serializeElems : List Json → String
  | [] => ""
  | [x] => x.serialize
  | x :: y :: xs => x.serialize ++ "," ++ serializeElems (y :: xs)

/-- Serialize the comma-separated key/value fields of a JSON object. -/
def serializeFields : List (String × Json) → String
  | [] => ""
  | [(k, v)] => "\"" ++ jsonEscape k ++ "\":" ++ v.serialize
  | (k, v) :: kv :: kvs =>
      "\"" ++ jsonEscape k ++ "\":" ++ v.serialize ++ "," ++ serializeFields (kv :: kvs)

end

/-! ## Topic-exchange routing

Modelled from the spec: the broker (RabbitMQ itself, external to the
repository) routes via the topic exchange `knowledge_nest_events`
(`RABBITMQ_IMPLEMENTATION.md` lines 30-39).  Spec glossary: "Topic exchange: a
broker routing node that delivers each message to every bound queue whose
pattern matches the message's routing key"; bindings use "exact match or
wildcard segments".  AMQP topic semantics: the pattern and key are split on
dots; a `*` segment matches exactly one word, a `#` segment matches zero or
more words, and any other segment matches only itself. -/

def splitSegsAux : List Char → String → List String
  | [], acc => [acc]
  | '.' :: cs, acc => acc :: splitSegsAux cs ""
  | c :: cs, acc => splitSegsAux cs (acc.push c)

/-- Split a routing key or binding pattern into its dot-separated
segments. -/
def splitSegs (s : String) : List String :=
  splitSegsAux s.data ""

/-- Match a list of pattern segments against a list of key segments: `*`
matches exactly one segment, `#` matches any (possibly empty) run of
segments, and any other pattern segment matches only an equal key
segment. -/
def segmentsMatch : List String → List String → Bool
  | [], ws => ws.isEmpty
  | "#" :: ps, ws => ws.tails.any (fun suffix => segmentsMatch ps suffix)
  | "*" :: ps, ws =>
      match ws with
      | [] => false
      | _ :: ws' => segmentsMatch ps ws'
  | p :: ps, ws =>
      match ws with
      | [] => false
      | w :: ws' => p == w && segmentsMatch ps ws'

/-- Modelled from the spec: whether a binding pattern matches a routing key,
per the topic-exchange glossary entry and the `course.*` binding example. -/
def topicMatch (pattern key : String) : Bool :=
  segmentsMatch (splitSegs pattern) (splitSegs key)

/-- Modelled from the spec: a queue bound to the topic exchange with a list of
patterns receives a message exactly when some pattern matches its routing
key. -/
def queueReceives (bindings : List String) (routingKey : String) : Bool :=
  bindings.any (fun p => topicMatch p routingKey)

/-- The four-event routing-key vocabulary of the system
(`RABBITMQ_IMPLEMENTATION.md` lines 35-39). -/
def routingKeyVocabulary : List String :=
  ["user.registered", "course.created", "course.enrolled", "review.created"]

/-! ## Event envelope and publisher

Modelled from the spec: the Python publisher `rabbitmq_client.py` of each
service is absent from `src/`; only `RABBITMQ_IMPLEMENTATION.md` (lines 43-48
and 182-198) documents it.  Spec section 4.2: `publish(routingKey, payload)`
constructs an envelope with `event_type = routingKey` and the current UTC
timestamp, serializes it to UTF-8 JSON, marks the message persistent at
content-type `application/json`, and on any failure (no connection, broker
rejects, serialization error) logs and returns normally. -/

structure EventEnvelope where
  event_type : String
  timestamp : String
  data : Json

/-- Render an envelope as the JSON object carried on the wire
(spec section 6: wire envelope is exactly the three fields `event_type`,
`timestamp`, `data`). -/
def envelopeJson (e : EventEnvelope) : Json :=
  .obj [("event_type", .str e.event_type),
        ("timestamp", .str e.timestamp),
        ("data", e.data)]

/-- Modelled from the spec: the envelope built inside `publish`, with
`event_type` equal to the routing key and the publish-time UTC timestamp. -/
def mkEnvelope (routingKey : String) (now : String) (payload : Json) :
    EventEnvelope :=
  { event_type := routingKey, timestamp := now, data := payload }

/-- AMQP delivery mode 2 marks a message persistent (survives broker
restart). -/
def persistentDeliveryMode : Nat := 2

/-- A message as handed to the broker: routing key, serialized body, AMQP
delivery mode, content type. -/
structure Message where
  routingKey : String
  body : String
  deliveryMode : Nat
  contentType : String
deriving Repr

/-- The failure modes of a publish attempt listed in spec section 4.2. -/
inductive PublishError where
  | noConnection : PublishError
  | brokerRejected : PublishError
  | serializationError : PublishError
deriving Repr, DecidableEq

/-- Outcome of calling a procedure that may raise: either a normal return or
an exception propagating to the caller. -/
inductive CallOutcome (α : Type) where
  | returns : α → CallOutcome α
  | raises : PublishError → CallOutcome α
deriving Repr

/-- A `CallOutcome` is a normal return (no exception reached the caller). -/
def CallOutcome.isNormalReturn {α : Type} : CallOutcome α → Bool
  | .returns _ => true
  | .raises _ => false

/-- Modelled from the spec: the environment a publish call runs in.  The
flags select which of the section 4.2 failure modes, if any, the broker and
serializer exhibit during this call. -/
structure BrokerEnv where
  serializeOk : Bool
  connected : Bool
  accepting : Bool
deriving Repr, DecidableEq

/-- Modelled from the spec: the raw publish attempt inside
`RabbitMQClient.publish_event`: serialize the envelope, acquire a channel,
hand the persistent `application/json` message to the broker; each failure
mode raises. -/
def publishAttempt (env : BrokerEnv) (routingKey : String) (payload : Json)
    (now : String) : CallOutcome Message :=
  if !env.serializeOk then .raises .serializationError
  else if !env.connected then .raises .noConnection
  else if !env.accepting then .raises .brokerRejected
  else .returns
    { routingKey := routingKey
      body := (envelopeJson (mkEnvelope routingKey now payload)).serialize
      deliveryMode := persistentDeliveryMode
      contentType := "application/json" }

/-- Modelled from the spec: `publish(routingKey, payload)` wraps the attempt
in a catch-all handler: any raised error is logged and the call returns
normally (`some` message on success, `none` after a logged failure). -/
def publish (env : BrokerEnv) (routingKey : String) (payload : Json)
    (now : String) : CallOutcome (Option Message) :=
  match publishAttempt env routingKey payload now with
  | .returns m => .returns (some m)
  | .raises _ => .returns none

/-- Modelled from the spec (section 5): a business-transaction request
handler performs its local write, then publishes as a side effect; the HTTP
response is computed from the local write only.  The result pairs the
response status/body with the publish outcome. -/
def handleBusinessRequest (env : BrokerEnv) (routingKey : String)
    (payload : Json) (now : String) (responseStatus : Nat)
    (responseBody : String) : (Nat × String) × CallOutcome (Option Message) :=
  ((responseStatus, responseBody), publish env routingKey payload now)

/-! ## Event consumer and dispatcher

Modelled from the spec: the notification service
(`services/notification_service/app.py`) is absent from `src/`; only
`RABBITMQ_IMPLEMENTATION.md` (lines 110-125 and the `process_event` usage
pattern at lines 203-211) documents it.  Spec section 4.3: for each delivery
parse the envelope; on parse failure reject without requeue and continue;
dispatch `event_type` to a handler (exact key first, then pattern match);
unmatched types are acknowledged and ignored; a handler outcome drives the
per-message acknowledgment state machine with bounded requeue of transient
errors.  In RabbitMQ, a reject without requeue is also the action that routes
the message to a dead-letter destination when one is configured on the
queue. -/

inductive HandlerOutcome where
  | success : HandlerOutcome
  | transientError : HandlerOutcome
  | permanentError : HandlerOutcome
deriving Repr, DecidableEq

/-- A registered handler, given the parsed envelope and the zero-based
attempt number of the current (re)delivery. -/
def Handler : Type := EventEnvelope → Nat → HandlerOutcome

/-- Modelled from the spec: the consumer's static configuration — the
envelope parser, the exact-key and pattern handler tables, and the bound on
transient-error requeues. -/
structure ConsumerConfig where
  parse : String → Option EventEnvelope
  exactHandlers : List (String × Handler)
  patternHandlers : List (String × Handler)
  maxRetries : Nat

/-- Modelled from the spec: dispatch looks up the exact key first, then the
first matching pattern. -/
def findHandler (cfg : ConsumerConfig) (eventType : String) : Option Handler :=
  match cfg.exactHandlers.find? (fun kv => kv.fst == eventType) with
  | some kv => some kv.snd
  | none =>
      match cfg.patternHandlers.find? (fun kv => topicMatch kv.fst eventType) with
      | some kv => some kv.snd
      | none => none

/-- Observable events of the consume loop, in the order they occur.
`rejectedNoRequeue` is a `basic_reject(requeue=False)`; `nackRequeued` is a
nack with requeue, always followed by the broker's redelivery. -/
inductive ConsumerEvent where
  | delivered : Nat → ConsumerEvent
  | handlerStarted : Nat → ConsumerEvent
  | handlerSucceeded : Nat → ConsumerEvent
  | handlerRaised : Nat → ConsumerEvent
  | acked : Nat → ConsumerEvent
  | nackRequeued : Nat → ConsumerEvent
  | redelivered : Nat → ConsumerEvent
  | rejectedNoRequeue : Nat → ConsumerEvent
deriving Repr, DecidableEq

/-- Modelled from the spec: the trace of handler attempts for one message.
`attempt` is the current attempt number, `remaining` the requeues still
allowed.  Success acks; a permanent error rejects without requeue; a
transient error requeues while retries remain and rejects without requeue
once they are exhausted. -/
def attemptTrace (h : Handler) (env : EventEnvelope) (tag attempt remaining : Nat) :
    List ConsumerEvent :=
  .handlerStarted tag ::
    match h env attempt with
    | .success => [.handlerSucceeded tag, .acked tag]
    | .permanentError => [.handlerRaised tag, .rejectedNoRequeue tag]
    | .transientError =>
        .handlerRaised tag ::
          match remaining with
          | 0 => [.rejectedNoRequeue tag]
          | r + 1 =>
              .nackRequeued tag :: .redelivered tag ::
                attemptTrace h env tag (attempt + 1) r

/-- Modelled from the spec: the full trace of processing one delivery —
parse, dispatch, then the acknowledgment state machine.  A body that fails
to parse is rejected without requeue (poison message); an envelope with no
matching handler is acknowledged and ignored. -/
def processDelivery (cfg : ConsumerConfig) (tag : Nat) (body : String) :
    List ConsumerEvent :=
  .delivered tag ::
    match cfg.parse body with
    | none => [.rejectedNoRequeue tag]
    | some env =>
        match findHandler cfg env.event_type with
        | none => [.acked tag]
        | some h => attemptTrace h env tag 0 cfg.maxRetries

/-- Modelled from the spec: the receive loop processes each delivery in turn
and continues with the rest of the queue. -/
def runLoop (cfg : ConsumerConfig) : List (Nat × String) → List ConsumerEvent
  | [] => []
  | (tag, body) :: ds => processDelivery cfg tag body ++ runLoop cfg ds

/-- Scan a trace, tracking whether the handler for message `tag` has already
succeeded; the result is `true` exactly when every `acked tag` event occurs
after a `handlerSucceeded tag` event. -/
def ackedOnlyAfterSuccess (tag : Nat) : Bool → List ConsumerEvent → Bool
  | _, [] => true
  | seen, .acked t :: es =>
      (t != tag || seen) && ackedOnlyAfterSuccess tag seen es
  | seen, .handlerSucceeded t :: es =>
      ackedOnlyAfterSuccess tag (seen || t == tag) es
  | seen, _ :: es => ackedOnlyAfterSuccess tag seen es

/-- Whether a consumer event is a nack-with-requeue of message `tag`. -/
def isRequeueEvent (tag : Nat) : ConsumerEvent → Bool
  | .nackRequeued t => t == tag
  | _ => false

/-- Number of nack-with-requeue events for message `tag` in a trace: the
number of times the message was redelivered for retry. -/
def requeueCount (tag : Nat) (trace : List ConsumerEvent) : Nat :=
  trace.countP (isRequeueEvent tag)

/-! ## PostgreSQL schema constraints

Embedded from `src/database/postgres/schema.sql`: `enrollments` (lines
16-22) and `reviews` (lines 25-33) both carry `UNIQUE(user_id, course_id)`;
`reviews.rating` is a nullable `INT CHECK (rating >= 1 AND rating <= 5)`.
A table is a list of rows; `insert` applies the constraints the way
PostgreSQL enforces them: a UNIQUE violation or a CHECK violation aborts the
insert, and a CHECK constraint whose condition evaluates to NULL (here: a
NULL rating) does not reject the row. -/

structure EnrollmentRow where
  id : Nat
  user_id : Int
  course_id : Int
deriving Repr, DecidableEq

structure ReviewRow where
  id : Nat
  user_id : Int
  course_id : Int
  rating : Option Int
  comment : Option String
deriving Repr, DecidableEq

inductive SqlError where
  | uniqueViolation : SqlError
  | checkViolation : SqlError
deriving Repr, DecidableEq

/-- Number of enrollment rows for a given (user_id, course_id) pair. -/
def enrollmentCount (t : List EnrollmentRow) (u c : Int) : Nat :=
  t.countP (fun r => r.user_id == u && r.course_id == c)

/-- Number of review rows for a given (user_id, course_id) pair. -/
def reviewCount (t : List ReviewRow) (u c : Int) : Nat :=
  t.countP (fun r => r.user_id == u && r.course_id == c)

/-- Insert into `enrollments` under `UNIQUE(user_id, course_id)`
(schema.sql line 21). -/
def insertEnrollment (t : List EnrollmentRow) (id : Nat) (u c : Int) :
    Except SqlError (List EnrollmentRow) :=
  if t.any (fun r => r.user_id == u && r.course_id == c) then
    .error .uniqueViolation
  else
    .ok (t ++ [{ id := id, user_id := u, course_id := c }])

/-- The CHECK constraint `rating >= 1 AND rating <= 5` (schema.sql line 29)
under SQL three-valued logic: a NULL rating makes the condition unknown,
which does not violate the constraint. -/
def ratingCheck : Option Int → Bool
  | none => true
  | some r => decide (1 ≤ r) && decide (r ≤ 5)

/-- Insert into `reviews` under the rating CHECK and
`UNIQUE(user_id, course_id)` (schema.sql lines 29 and 32). -/
def insertReview (t : List ReviewRow) (id : Nat) (u c : Int)
    (rating : Option Int) (comment : Option String) :
    Except SqlError (List ReviewRow) :=
  if !ratingCheck rating then .error .checkViolation
  else if t.any (fun r => r.user_id == u && r.course_id == c) then
    .error .uniqueViolation
  else
    .ok (t ++ [{ id := id, user_id := u, course_id := c,
                 rating := rating, comment := comment }])

/-- The enrollments table after attempting an insert: a failed insert leaves
the table unchanged. -/
def enrollTableAfter (t : List EnrollmentRow) (id : Nat) (u c : Int) :
    List EnrollmentRow :=
  match insertEnrollment t id u c with
  | .ok t' => t'
  | .error _ => t

/-- The reviews table after attempting an insert: a failed insert leaves the
table unchanged. -/
def reviewTableAfter (t : List ReviewRow) (id : Nat) (u c : Int)
    (rating : Option Int) (comment : Option String) : List ReviewRow :=
  match insertReview t id u c rating comment with
  | .ok t' => t'
  | .error _ => t

/-- Whether an insert statement succeeded. -/
def sqlOk {α : Type} : Except SqlError α → Bool
  | .ok _ => true
  | .error _ => false

/-- Whether a persisted review row carries a rating between 1 and 5
inclusive (a NULL rating does not). -/
def rowRatingInRange (r : ReviewRow) : Bool :=
  match r.rating with
  | some v => decide (1 ≤ v) && decide (v ≤ 5)
  | none => false

/-! ## Frontend API client

Embedded from `src/frontend/src/utils/api.js` (both copies, lines 12-18 and
58-64): the axios request interceptor reads `localStorage.getItem("kn_token")`
and, when the result is truthy, sets the `Authorization` header to
`Bearer <token>`.  `getItem` returns null when the key is absent; in
JavaScript both null and the empty string are falsy in `if (token)`. -/

structure RequestConfig where
  contentType : String
  authorization : Option String
deriving Repr, DecidableEq

/-- JavaScript truthiness of a `localStorage.getItem` result: null and the
empty string are falsy, every other string is truthy. -/
def jsTruthy : Option String → Bool
  | none => false
  | some s => !(s == "")

/-- The axios request interceptor of `api.js`: attach
`Authorization: Bearer <token>` exactly when the stored token is truthy. -/
def requestInterceptor (stored : Option String) (cfg : RequestConfig) :
    RequestConfig :=
  match stored with
  | none => cfg
  | some t =>
      if t == "" then cfg
      else { cfg with authorization := some ("Bearer " ++ t) }

/-! ## Concrete inputs used to instantiate the theorems below -/

/-- A broker environment in which every step of a publish succeeds. -/
def allOkEnv : BrokerEnv :=
  { serializeOk := true, connected := true, accepting := true }

/-- The `user.registered` payload of `RABBITMQ_IMPLEMENTATION.md` lines
62-72. -/
def demoUserPayload : Json :=
  .obj [("user_id", .num 123), ("email", .str "user@example.com"),
        ("name", .str "John Doe")]

/-- The `course.enrolled` payload of `RABBITMQ_IMPLEMENTATION.md` lines
79-90. -/
def demoEnrollPayload : Json :=
  .obj [("enrollment_id", .num 456), ("user_id", .num 123),
        ("course_id", .num 789), ("course_title", .str "Python Fundamentals")]

/-- The message produced by a successful publish of the demo
`user.registered` payload. -/
def demoUserMessage : Message :=
  { routingKey := "user.registered"
    body := (envelopeJson
      (mkEnvelope "user.registered" "2024-01-15T10:30:00" demoUserPayload)).serialize
    deliveryMode := persistentDeliveryMode
    contentType := "application/json" }

/-- The message produced by a successful publish of the demo
`course.enrolled` payload. -/
def demoEnrollMessage : Message :=
  { routingKey := "course.enrolled"
    body := (envelopeJson
      (mkEnvelope "course.enrolled" "2024-01-15T10:35:00" demoEnrollPayload)).serialize
    deliveryMode := persistentDeliveryMode
    contentType := "application/json" }

/-- A demo envelope as parsed by the consumer. -/
def demoEnvelope : EventEnvelope :=
  mkEnvelope "review.created" "2024-01-15T10:40:00" (Json.obj [])

/-- A handler that raises a transient error on every attempt. -/
def alwaysTransientHandler : Handler := fun _ _ => .transientError

/-- A handler that succeeds on every attempt. -/
def alwaysSuccessHandler : Handler := fun _ _ => .success

/-- A consumer whose `review.created` handler always raises a transient
error, with a retry bound of 2. -/
def demoTransientCfg : ConsumerConfig :=
  { parse := fun _ => some demoEnvelope
    exactHandlers := [("review.created", alwaysTransientHandler)]
    patternHandlers := []
    maxRetries := 2 }

/-- A consumer whose `review.created` handler always succeeds. -/
def demoSuccessCfg : ConsumerConfig :=
  { parse := fun _ => some demoEnvelope
    exactHandlers := [("review.created", alwaysSuccessHandler)]
    patternHandlers := []
    maxRetries := 2 }

/-- A consumer whose parser rejects every body (all deliveries are
malformed). -/
def demoPoisonCfg : ConsumerConfig :=
  { parse := fun _ => none
    exactHandlers := []
    patternHandlers := []
    maxRetries := 3 }

/-- A one-row enrollments table: user 1 is enrolled in course 2. -/
def demoEnrollTable : List EnrollmentRow :=
  [{ id := 1, user_id := 1, course_id := 2 }]

/-- A one-row reviews table: user 1 reviewed course 2 with rating 5. -/
def demoReviewTable : List ReviewRow :=
  [{ id := 1, user_id := 1, course_id := 2, rating := some 5, comment := none }]

/-- The base axios request config created in `api.js`: content type set, no
Authorization header. -/
def baseRequestConfig : RequestConfig :=
  { contentType := "application/json", authorization := none }

end KnowledgeNest

namespace KnowledgeNest

/-! ## Theorems for the claims -/

/-- C1: for every routing key and payload, `publish` returns normally to the
business-transaction caller regardless of broker availability — on any
failure (serialization error, no connection, broker rejects) it logs and
returns — and the HTTP response of the request that triggered the publish
does not depend on the broker environment. -/
theorem c1_publish_never_raises (env env' : BrokerEnv) (routingKey : String)
    (payload : Json) (now : String) (status : Nat) (body : String) :
    (publish env routingKey payload now).isNormalReturn = true ∧
    (handleBusinessRequest env routingKey payload now status body).1 =
      (handleBusinessRequest env' routingKey payload now status body).1 := by
  constructor
  · unfold publish
    cases h : publishAttempt env routingKey payload now <;> rfl
  · rfl

/-- C3: among the four vocabulary routing keys, a queue bound to the topic
exchange with pattern `course.*` receives exactly the messages whose routing
key is `course.created` or `course.enrolled`, and never `review.created` or
`user.registered`. -/
theorem c3_course_wildcard_binding (k : String) (hk : k ∈ routingKeyVocabulary) :
    queueReceives ["course.*"] k =
      (k == "course.created" || k == "course.enrolled") := by
  simp only [routingKeyVocabulary, List.mem_cons, List.not_mem_nil,
    or_false] at hk
  rcases hk with rfl | rfl | rfl | rfl <;> decide

/-- Witness for C3 at the concrete vocabulary keys `course.created` and
`review.created`. -/
theorem c3_witness :
    queueReceives ["course.*"] "course.created" = true ∧
    queueReceives ["course.*"] "review.created" = false :=
  ⟨(c3_course_wildcard_binding "course.created"
      (by simp [routingKeyVocabulary])).trans (by decide),
   (c3_course_wildcard_binding "review.created"
      (by simp [routingKeyVocabulary])).trans (by decide)⟩

/-- C4: a delivery whose body fails to parse is rejected without requeue
(poison message), is never acknowledged, and the loop continues with the
subsequent deliveries unchanged. -/
theorem c4_poison_message (cfg : ConsumerConfig) (tag : Nat) (body : String)
    (ds : List (Nat × String)) (hp : cfg.parse body = none) :
    processDelivery cfg tag body = [.delivered tag, .rejectedNoRequeue tag] ∧
    .acked tag ∉ processDelivery cfg tag body ∧
    runLoop cfg ((tag, body) :: ds) =
      [.delivered tag, .rejectedNoRequeue tag] ++ runLoop cfg ds := by
  have h1 : processDelivery cfg tag body =
      [.delivered tag, .rejectedNoRequeue tag] := by
    unfold processDelivery
    rw [hp]
  exact ⟨h1, by simp [h1], by simp [runLoop, h1]⟩

/-- Witness for C4: a consumer whose parser rejects the body "not json"
rejects the delivery without requeue and continues. -/
theorem c4_witness :
    processDelivery demoPoisonCfg 9 "not json" =
      [.delivered 9, .rejectedNoRequeue 9] ∧
    .acked 9 ∉ processDelivery demoPoisonCfg 9 "not json" ∧
    runLoop demoPoisonCfg [(9, "not json"), (10, "also bad")] =
      [.delivered 9, .rejectedNoRequeue 9] ++
        runLoop demoPoisonCfg [(10, "also bad")] :=
  c4_poison_message demoPoisonCfg 9 "not json" [(10, "also bad")] rfl

/-- C6: every message returned by a successful publish attempt carries a
body that serializes an envelope whose `event_type` equals the AMQP routing
key of the message. -/
theorem c6_event_type_equals_routing_key (env : BrokerEnv)
    (routingKey : String) (payload : Json) (now : String) (m : Message)
    (hm : publishAttempt env routingKey payload now = .returns m) :
    m.routingKey = routingKey ∧
    (mkEnvelope routingKey now payload).event_type = routingKey ∧
    m.body = (envelopeJson (mkEnvelope routingKey now payload)).serialize := by
  unfold publishAttempt at hm
  split at hm
  · exact CallOutcome.noConfusion hm
  · split at hm
    · exact CallOutcome.noConfusion hm
    · split at hm
      · exact CallOutcome.noConfusion hm
      · injection hm with h
        subst h
        exact ⟨rfl, rfl, rfl⟩

/-- Witness for C6 at a concrete `user.registered` publish. -/
theorem c6_witness :
    demoUserMessage.routingKey = "user.registered" ∧
    (mkEnvelope "user.registered" "2024-01-15T10:30:00"
      demoUserPayload).event_type = "user.registered" ∧
    demoUserMessage.body =
      (envelopeJson (mkEnvelope "user.registered" "2024-01-15T10:30:00"
        demoUserPayload)).serialize :=
  c6_event_type_equals_routing_key allOkEnv "user.registered" demoUserPayload
    "2024-01-15T10:30:00" demoUserMessage rfl

/-- C7: every message returned by a successful publish attempt has as body
the JSON serialization of the three-field envelope
(`event_type`, `timestamp`, `data`), is marked for persistent delivery, and
carries content type `application/json`. -/
theorem c7_wire_format (env : BrokerEnv) (routingKey : String)
    (payload : Json) (now : String) (m : Message)
    (hm : publishAttempt env routingKey payload now = .returns m) :
    m.body = (envelopeJson (mkEnvelope routingKey now payload)).serialize ∧
    m.deliveryMode = persistentDeliveryMode ∧
    m.contentType = "application/json" ∧
    envelopeJson (mkEnvelope routingKey now payload) =
      .obj [("event_type", .str routingKey), ("timestamp", .str now),
            ("data", payload)] := by
  unfold publishAttempt at hm
  split at hm
  · exact CallOutcome.noConfusion hm
  · split at hm
    · exact CallOutcome.noConfusion hm
    · split at hm
      · exact CallOutcome.noConfusion hm
      · injection hm with h
        subst h
        exact ⟨rfl, rfl, rfl, rfl⟩

/-- Helper for C2: every acknowledgment inside the per-message attempt trace
occurs after the handler has succeeded, whatever the attempt number, retry
budget, or prior scan state. -/
lemma ackedOnlyAfterSuccess_attemptTrace (h : Handler) (env : EventEnvelope)
    (tag : Nat) :
    ∀ remaining attempt seen,
      ackedOnlyAfterSuccess tag seen
        (attemptTrace h env tag attempt remaining) = true := by
  intro remaining
  induction remaining with
  | zero =>
      intro attempt seen
      cases hout : h env attempt <;>
        simp [attemptTrace, ackedOnlyAfterSuccess, hout]
  | succ r ih =>
      intro attempt seen
      cases hout : h env attempt <;>
        simp [attemptTrace, ackedOnlyAfterSuccess, hout, ih]

/-- C2: for every delivered message that has a registered handler, the
consumer issues the acknowledgment only after that handler has run to
successful completion — in no position of the processing trace is the
message acknowledged before its handler has succeeded. -/
theorem c2_ack_only_after_handler (cfg : ConsumerConfig) (tag : Nat)
    (body : String) (env : EventEnvelope) (h : Handler)
    (hp : cfg.parse body = some env)
    (hh : findHandler cfg env.event_type = some h) :
    ackedOnlyAfterSuccess tag false (processDelivery cfg tag body) = true := by
  simp only [processDelivery, hp, hh]
  simp only [ackedOnlyAfterSuccess]
  exact ackedOnlyAfterSuccess_attemptTrace h env tag cfg.maxRetries 0 false

/-- Witness for C2 at a concrete delivery handled successfully. -/
theorem c2_witness :
    ackedOnlyAfterSuccess 5 false (processDelivery demoSuccessCfg 5 "x") =
      true :=
  c2_ack_only_after_handler demoSuccessCfg 5 "x" demoEnvelope
    alwaysSuccessHandler rfl rfl

/-- Helper: one-step unfolding of `attemptTrace`, valid for an arbitrary
retry budget. -/
lemma attemptTrace_eq (h : Handler) (env : EventEnvelope)
    (tag attempt remaining : Nat) :
    attemptTrace h env tag attempt remaining =
      .handlerStarted tag ::
        match h env attempt with
        | .success => [.handlerSucceeded tag, .acked tag]
        | .permanentError => [.handlerRaised tag, .rejectedNoRequeue tag]
        | .transientError =>
            .handlerRaised tag ::
              match remaining with
              | 0 => [.rejectedNoRequeue tag]
              | r + 1 =>
                  .nackRequeued tag :: .redelivered tag ::
                    attemptTrace h env tag (attempt + 1) r := by
  cases remaining <;> cases hout : h env attempt <;>
    simp [attemptTrace, hout]

/-- Helper: a leading `delivered` event does not change the requeue count. -/
lemma requeueCount_delivered_cons (tag : Nat) (tr : List ConsumerEvent) :
    requeueCount tag (.delivered tag :: tr) = requeueCount tag tr := by
  simp [requeueCount, List.countP_cons, isRequeueEvent]

/-- Helper for C5: the attempt trace nacks-with-requeue at most `remaining`
times. -/
lemma requeueCount_attemptTrace_le (h : Handler) (env : EventEnvelope)
    (tag : Nat) :
    ∀ remaining attempt,
      requeueCount tag (attemptTrace h env tag attempt remaining) ≤
        remaining := by
  intro remaining
  induction remaining with
  | zero =>
      intro attempt
      cases hout : h env attempt <;>
        simp [attemptTrace, requeueCount, List.countP_cons, isRequeueEvent,
          hout]
  | succ r ih =>
      intro attempt
      cases hout : h env attempt <;>
        simp [attemptTrace, requeueCount, List.countP_cons, isRequeueEvent,
          hout]
      exact ih (attempt + 1)

/-- Helper for C5: when the handler raises a transient error on every
attempt, the attempt trace exhausts exactly its retry budget, never
acknowledges, and ends by rejecting the message without requeue. -/
lemma attemptTrace_always_transient (h : Handler) (env : EventEnvelope)
    (tag : Nat) (hall : ∀ n, h env n = .transientError) :
    ∀ remaining attempt,
      .rejectedNoRequeue tag ∈ attemptTrace h env tag attempt remaining ∧
      .acked tag ∉ attemptTrace h env tag attempt remaining ∧
      requeueCount tag (attemptTrace h env tag attempt remaining) =
        remaining := by
  intro remaining
  induction remaining with
  | zero =>
      intro attempt
      simp [attemptTrace, hall attempt, requeueCount, List.countP_cons,
        isRequeueEvent]
  | succ r ih =>
      intro attempt
      obtain ⟨a, b, c⟩ := ih (attempt + 1)
      refine ⟨?_, ?_, ?_⟩
      · simp only [attemptTrace, hall attempt]
        simp [a]
      · simp only [attemptTrace, hall attempt]
        simp [b]
      · simp only [attemptTrace, hall attempt]
        simp [requeueCount, List.countP_cons, isRequeueEvent]
        exact c

/-- C5: transient handler errors cause nack-with-requeue redeliveries at
most `maxRetries` times; a permanent error drops the message immediately
without requeue; a handler that always raises transiently exhausts the bound
exactly, is never acknowledged, and is then rejected without requeue (the
action that dead-letters the message when a dead-letter destination is
configured); and the loop keeps processing the subsequent deliveries. -/
theorem c5_bounded_retry (cfg : ConsumerConfig) (tag : Nat) (body : String)
    (env : EventEnvelope) (h : Handler) (ds : List (Nat × String))
    (hp : cfg.parse body = some env)
    (hh : findHandler cfg env.event_type = some h) :
    requeueCount tag (processDelivery cfg tag body) ≤ cfg.maxRetries ∧
    runLoop cfg ((tag, body) :: ds) =
      processDelivery cfg tag body ++ runLoop cfg ds ∧
    (h env 0 = .permanentError →
      processDelivery cfg tag body =
        [.delivered tag, .handlerStarted tag, .handlerRaised tag,
         .rejectedNoRequeue tag]) ∧
    ((∀ n, h env n = .transientError) →
      .rejectedNoRequeue tag ∈ processDelivery cfg tag body ∧
      .acked tag ∉ processDelivery cfg tag body ∧
      requeueCount tag (processDelivery cfg tag body) = cfg.maxRetries) := by
  have hpd : processDelivery cfg tag body =
      .delivered tag :: attemptTrace h env tag 0 cfg.maxRetries := by
    simp only [processDelivery, hp, hh]
  refine ⟨?_, ?_, ?_, ?_⟩
  · rw [hpd, requeueCount_delivered_cons]
    exact requeueCount_attemptTrace_le h env tag cfg.maxRetries 0
  · simp [runLoop]
  · intro hperm
    rw [hpd, attemptTrace_eq, hperm]
  · intro hall
    obtain ⟨a, b, c⟩ :=
      attemptTrace_always_transient h env tag hall cfg.maxRetries 0
    refine ⟨?_, ?_, ?_⟩
    · rw [hpd]
      exact List.mem_cons_of_mem _ a
    · rw [hpd]
      simp [b]
    · rw [hpd, requeueCount_delivered_cons]
      exact c

/-- Witness for C5: a `review.created` handler that always raises a
transient error, with retry bound 2, is requeued exactly twice, never
acknowledged, then rejected without requeue, and the loop continues. -/
theorem c5_witness :
    requeueCount 7 (processDelivery demoTransientCfg 7 "b") ≤ 2 ∧
    runLoop demoTransientCfg [(7, "b"), (11, "next")] =
      processDelivery demoTransientCfg 7 "b" ++
        runLoop demoTransientCfg [(11, "next")] ∧
    .rejectedNoRequeue 7 ∈ processDelivery demoTransientCfg 7 "b" ∧
    .acked 7 ∉ processDelivery demoTransientCfg 7 "b" ∧
    requeueCount 7 (processDelivery demoTransientCfg 7 "b") = 2 := by
  have H := c5_bounded_retry demoTransientCfg 7 "b" demoEnvelope
    alwaysTransientHandler [(11, "next")] rfl rfl
  have T := H.2.2.2 (fun _ => rfl)
  exact ⟨H.1, H.2.1, T.1, T.2.1, T.2.2⟩

/-- Witness for C7 at a concrete `course.enrolled` publish. -/
theorem c7_witness :
    demoEnrollMessage.body =
      (envelopeJson (mkEnvelope "course.enrolled" "2024-01-15T10:35:00"
        demoEnrollPayload)).serialize ∧
    demoEnrollMessage.deliveryMode = persistentDeliveryMode ∧
    demoEnrollMessage.contentType = "application/json" ∧
    envelopeJson (mkEnvelope "course.enrolled" "2024-01-15T10:35:00"
      demoEnrollPayload) =
      .obj [("event_type", .str "course.enrolled"),
            ("timestamp", .str "2024-01-15T10:35:00"),
            ("data", demoEnrollPayload)] :=
  c7_wire_format allOkEnv "course.enrolled" demoEnrollPayload
    "2024-01-15T10:35:00" demoEnrollMessage rfl

/-- Helper: appending one row keeps a per-predicate count at most 1,
provided the predicate was counted zero times whenever the new row satisfies
it. -/
lemma countP_le_one_append {α : Type} (p : α → Bool) (t : List α) (row : α)
    (h1 : t.countP p ≤ 1) (h0 : p row = true → t.countP p = 0) :
    (t ++ [row]).countP p ≤ 1 := by
  rw [List.countP_append]
  cases hrow : p row
  · simp [List.countP_cons, hrow, h1]
  · simp [List.countP_cons, hrow, h0 hrow]

/-- Helper: a successful enrollment insert means no row with the same
(user_id, course_id) pair existed, and the new table is the old one plus the
new row. -/
lemma insertEnrollment_ok (t : List EnrollmentRow) (id : Nat) (u c : Int)
    (t' : List EnrollmentRow)
    (h : insertEnrollment t id u c = .ok t') :
    t.any (fun r => r.user_id == u && r.course_id == c) = false ∧
    t' = t ++ [{ id := id, user_id := u, course_id := c }] := by
  unfold insertEnrollment at h
  split at h
  · exact Except.noConfusion h
  · rename_i hany
    injection h with h'
    exact ⟨by simpa using hany, h'.symm⟩

/-- Helper: a successful review insert means the rating passed the CHECK, no
row with the same (user_id, course_id) pair existed, and the new table is
the old one plus the new row. -/
lemma insertReview_ok (t : List ReviewRow) (id : Nat) (u c : Int)
    (rating : Option Int) (comment : Option String) (t' : List ReviewRow)
    (h : insertReview t id u c rating comment = .ok t') :
    ratingCheck rating = true ∧
    t.any (fun r => r.user_id == u && r.course_id == c) = false ∧
    t' = t ++ [{ id := id, user_id := u, course_id := c,
                 rating := rating, comment := comment }] := by
  unfold insertReview at h
  split at h
  · exact Except.noConfusion h
  · rename_i hrc
    split at h
    · exact Except.noConfusion h
    · rename_i hany
      injection h with h'
      refine ⟨?_, by simpa using hany, h'.symm⟩
      cases hb : ratingCheck rating
      · rw [hb] at hrc
        exact absurd rfl hrc
      · rfl

/-- Helper: if some row of the table already carries the pair (u, c), the
`any` test of the UNIQUE constraint fires. -/
lemma enrollment_any_of_count (t : List EnrollmentRow) (u c : Int)
    (hdup : 1 ≤ enrollmentCount t u c) :
    t.any (fun r => r.user_id == u && r.course_id == c) = true := by
  have hpos : 0 < t.countP (fun r => r.user_id == u && r.course_id == c) :=
    hdup
  obtain ⟨a, ha, hpa⟩ := List.countP_pos_iff.mp hpos
  exact List.any_eq_true.mpr ⟨a, ha, hpa⟩

/-- Helper: review-table version of `enrollment_any_of_count`. -/
lemma review_any_of_count (t : List ReviewRow) (u c : Int)
    (hdup : 1 ≤ reviewCount t u c) :
    t.any (fun r => r.user_id == u && r.course_id == c) = true := by
  have hpos : 0 < t.countP (fun r => r.user_id == u && r.course_id == c) :=
    hdup
  obtain ⟨a, ha, hpa⟩ := List.countP_pos_iff.mp hpos
  exact List.any_eq_true.mpr ⟨a, ha, hpa⟩

/-- C8: under `UNIQUE(user_id, course_id)` the database admits at most one
enrollments row and at most one reviews row per (user, course) pair — the
uniqueness bound is preserved by any insert attempt — and inserting a second
enrollment or review for a pair that already has one fails and leaves the
table unchanged. -/
theorem c8_unique_user_course (te : List EnrollmentRow) (tr : List ReviewRow)
    (eid rid : Nat) (u c : Int) (rating : Option Int) (cm : Option String)
    (hte : ∀ u' c', enrollmentCount te u' c' ≤ 1)
    (htr : ∀ u' c', reviewCount tr u' c' ≤ 1)
    (hdupE : 1 ≤ enrollmentCount te u c)
    (hdupR : 1 ≤ reviewCount tr u c) :
    insertEnrollment te eid u c = .error .uniqueViolation ∧
    enrollTableAfter te eid u c = te ∧
    sqlOk (insertReview tr rid u c rating cm) = false ∧
    reviewTableAfter tr rid u c rating cm = tr ∧
    (∀ eid' u' c' u2 c2,
      enrollmentCount (enrollTableAfter te eid' u' c') u2 c2 ≤ 1) ∧
    (∀ rid' u' c' rt cmt u2 c2,
      reviewCount (reviewTableAfter tr rid' u' c' rt cmt) u2 c2 ≤ 1) := by
  have hanyE := enrollment_any_of_count te u c hdupE
  have hanyR := review_any_of_count tr u c hdupR
  have hinsE : insertEnrollment te eid u c = .error .uniqueViolation := by
    simp [insertEnrollment, hanyE]
  have hinsR : sqlOk (insertReview tr rid u c rating cm) = false := by
    cases hrc : ratingCheck rating <;> simp [insertReview, hrc, hanyR, sqlOk]
  refine ⟨hinsE, by simp [enrollTableAfter, hinsE], hinsR, ?_, ?_, ?_⟩
  · unfold reviewTableAfter
    cases hins : insertReview tr rid u c rating cm with
    | ok t' => rw [hins] at hinsR; exact absurd hinsR (by simp [sqlOk])
    | error e => rfl
  · intro eid' u' c' u2 c2
    unfold enrollTableAfter
    cases hins : insertEnrollment te eid' u' c' with
    | error e => exact hte u2 c2
    | ok t' =>
        obtain ⟨hany, ht'⟩ := insertEnrollment_ok te eid' u' c' t' hins
        subst ht'
        refine countP_le_one_append _ te _ (hte u2 c2) ?_
        intro hrow
        simp only [Bool.and_eq_true, beq_iff_eq] at hrow
        obtain ⟨hu, hc⟩ := hrow
        subst hu
        subst hc
        exact List.countP_eq_zero.mpr (List.any_eq_false.mp hany)
  · intro rid' u' c' rt cmt u2 c2
    unfold reviewTableAfter
    cases hins : insertReview tr rid' u' c' rt cmt with
    | error e => exact htr u2 c2
    | ok t' =>
        obtain ⟨_, hany, ht'⟩ := insertReview_ok tr rid' u' c' rt cmt t' hins
        subst ht'
        refine countP_le_one_append _ tr _ (htr u2 c2) ?_
        intro hrow
        simp only [Bool.and_eq_true, beq_iff_eq] at hrow
        obtain ⟨hu, hc⟩ := hrow
        subst hu
        subst hc
        exact List.countP_eq_zero.mpr (List.any_eq_false.mp hany)

/-- Witness for C8 at concrete one-row tables containing the pair (1, 2). -/
theorem c8_witness :
    insertEnrollment demoEnrollTable 3 1 2 = .error .uniqueViolation ∧
    enrollTableAfter demoEnrollTable 3 1 2 = demoEnrollTable ∧
    sqlOk (insertReview demoReviewTable 3 1 2 (some 4) none) = false ∧
    reviewTableAfter demoReviewTable 3 1 2 (some 4) none = demoReviewTable := by
  have H := c8_unique_user_course demoEnrollTable demoReviewTable 3 3 1 2
    (some 4) none
    (fun u' c' => by
      simp only [enrollmentCount, demoEnrollTable, List.countP_cons,
        List.countP_nil]
      split <;> simp)
    (fun u' c' => by
      simp only [reviewCount, demoReviewTable, List.countP_cons,
        List.countP_nil]
      split <;> simp)
    (by decide) (by decide)
  exact ⟨H.1, H.2.1, H.2.2.1, H.2.2.2.1⟩

/-- C9 counterexample: the `rating` column of `reviews` is nullable and the
CHECK constraint `rating >= 1 AND rating <= 5` evaluates to unknown — not to
a violation — on NULL, so a review row with no rating at all is successfully
inserted; that row does not have a rating between 1 and 5, refuting the
claim that every successfully inserted reviews row does. -/
theorem c9_counterexample :
    insertReview [] 1 1 1 none none =
      .ok [{ id := 1, user_id := 1, course_id := 1, rating := none,
             comment := none }] ∧
    rowRatingInRange
      { id := 1, user_id := 1, course_id := 1, rating := none,
        comment := none } = false :=
  ⟨rfl, rfl⟩

/-- C9 (amended): every successfully inserted reviews row with a non-NULL
rating has rating between 1 and 5 inclusive, and an insert whose non-NULL
rating lies outside this range is rejected by the CHECK constraint, leaving
the table unchanged. -/
theorem c9_rating_check (t : List ReviewRow) (id : Nat) (u c r : Int)
    (cm : Option String) :
    (∀ t', insertReview t id u c (some r) cm = .ok t' → 1 ≤ r ∧ r ≤ 5) ∧
    ((r < 1 ∨ 5 < r) →
      insertReview t id u c (some r) cm = .error .checkViolation ∧
      reviewTableAfter t id u c (some r) cm = t) := by
  constructor
  · intro t' h
    obtain ⟨hrc, -, -⟩ := insertReview_ok t id u c (some r) cm t' h
    simp only [ratingCheck, Bool.and_eq_true, decide_eq_true_eq] at hrc
    exact hrc
  · intro hout
    have hrc : ratingCheck (some r) = false := by
      simp only [ratingCheck, Bool.and_eq_false_iff, decide_eq_false_iff_not,
        not_le]
      rcases hout with h1 | h5
      · exact Or.inl h1
      · exact Or.inr h5
    have hins : insertReview t id u c (some r) cm = .error .checkViolation := by
      simp [insertReview, hrc]
    exact ⟨hins, by simp [reviewTableAfter, hins]⟩

/-- Witness for C9 (amended): inserting a review with rating 7 into the
empty table is rejected by the CHECK constraint and leaves the table
empty. -/
theorem c9_witness :
    insertReview [] 2 1 1 (some 7) none = .error .checkViolation ∧
    reviewTableAfter [] 2 1 1 (some 7) none = [] :=
  (c9_rating_check [] 2 1 1 7 none).2 (Or.inr (by decide))

/-- C10 counterexample: storing the empty string under `kn_token` means a
token is stored (`getItem` does not return null), yet `if (token)` treats
the empty string as falsy, so no Authorization header is attached — refuting
the claim that a header is attached if and only if a token is stored. -/
theorem c10_counterexample :
    (some "" : Option String).isSome = true ∧
    (requestInterceptor (some "") baseRequestConfig).authorization = none :=
  ⟨rfl, rfl⟩

/-- C10 (amended): starting from a config with no Authorization header, the
interceptor attaches a header exactly when the stored token is truthy (a
non-empty string); a truthy stored token `t` yields the header
`Bearer <t>`; and a falsy lookup (no token, or the empty string) leaves the
config untouched. -/
theorem c10_bearer_header (stored : Option String) (cfg : RequestConfig)
    (hcfg : cfg.authorization = none) :
    ((requestInterceptor stored cfg).authorization.isSome = jsTruthy stored) ∧
    (∀ t, stored = some t → t ≠ "" →
      (requestInterceptor stored cfg).authorization = some ("Bearer " ++ t)) ∧
    (jsTruthy stored = false → requestInterceptor stored cfg = cfg) := by
  refine ⟨?_, ?_, ?_⟩
  · cases stored with
    | none => simp [requestInterceptor, jsTruthy, hcfg]
    | some t =>
        cases hb : t == ""
        · simp [requestInterceptor, jsTruthy, hb]
        · simp [requestInterceptor, jsTruthy, hb, hcfg]
  · intro t ht hne
    subst ht
    have hb : (t == "") = false := by
      simpa using hne
    simp [requestInterceptor, hb]
  · intro hfalse
    cases stored with
    | none => rfl
    | some t =>
        simp only [jsTruthy, Bool.not_eq_false'] at hfalse
        simp [requestInterceptor, hfalse]

/-- Witness for C10 (amended) at a concrete stored token. -/
theorem c10_witness :
    (requestInterceptor (some "tok123")
      baseRequestConfig).authorization.isSome = jsTruthy (some "tok123") ∧
    (requestInterceptor (some "tok123") baseRequestConfig).authorization =
      some ("Bearer " ++ "tok123") := by
  have H := c10_bearer_header (some "tok123") baseRequestConfig rfl
  exact ⟨H.1, H.2.1 "tok123" rfl (by decide)⟩

end KnowledgeNest
